import Mathlib

/-!
Shallow embedding of the TimeLapse Arduino firmware
(src/arduino/TimeLapse/TimeLapse.ino, version 1.0).

Modelling choices:
* The global variables of the firmware (capturing, max_photos, num_photos,
  af_enabled, photo_interval_s, time_lapse_dur_s) together with the Chrono
  photoTimer form the state record Sys.  C ints are modelled as Int, C
  floats as Rat, the Chrono timer as its elapsed time in milliseconds.
* Pin writes of pulseAF / pulseShutter are modelled as emitted Pulse
  events; the LED blinker touches only the LED pin and is not modelled.
* The serial shell hands each handler argc/argv; argument parsing by
  atoi/atof is abstracted by giving each handler its already parsed
  argument list (argc equals the list length plus one for argv[0], which
  is passed separately as the command name).  Informational prints of the
  updated values are elided; the rejection and error messages are kept
  verbatim.
* Each handler returns the new state, its int exit status, the text lines
  it printed, and the pulses it emitted.
* One iteration of the Arduino loop() with no pending serial input is
  modelled by the function loop, parameterised by the real time dt (in
  milliseconds) that elapsed since the previous iteration; command
  executions arriving over serial are separate steps of the Cmd relation.
  Chrono.hasPassed t holds iff elapsed time is at least t.
-/

namespace TimeLapse

/-- Digital pulse events emitted on the camera control pins
(AF_PIN by pulseAF, SHUTTER_PIN by pulseShutter). -/
inductive Pulse where
  | af
  | shutter
deriving DecidableEq

/-- C standard exit status for success. -/
def EXIT_SUCCESS : Int := 0

/-- C standard exit status for failure. -/
def EXIT_FAILURE : Int := 1

/-- Pulse duration in milliseconds (define PULSE_DUR 100 in the source). -/
def PULSE_DUR : ℚ := 100

/-- Minimum interval between photos
(define MIN_PHOTO_INTERVAL_S 3 in the source); the constant is declared
but never read by any handler. -/
def MIN_PHOTO_INTERVAL_S : ℚ := 3

/-- The global mutable state of the firmware: capture flag, photo target and
counter, autofocus flag, interval and derived duration (seconds), and the
Chrono photoTimer modelled as its elapsed milliseconds. -/
structure Sys where
  capturing : Bool
  max_photos : Int
  num_photos : Int
  af_enabled : Bool
  photo_interval_s : ℚ
  time_lapse_dur_s : ℚ
  timerMs : ℚ
deriving DecidableEq

/-- The initial values of the globals at boot. -/
def initState : Sys :=
  { capturing := false
    max_photos := 1
    num_photos := 0
    af_enabled := false
    photo_interval_s := 1
    time_lapse_dur_s := 0
    timerMs := 0 }

/-- Result of one handler call or loop iteration: the new global state,
the returned exit status, the printed text lines, and the emitted pin
pulses. -/
structure R where
  sys : Sys
  status : Int
  out : List String
  pulses : List Pulse
deriving DecidableEq

/-- Suffix printed by badArgCount after the command name. -/
def badArgSuffix : String := ": bad arg count"

/-- Message printed when set_count is rejected mid-capture. -/
def msgCountMidCapture : String := "Cannot update photo count mid-capture"

/-- Message printed when set_interval is rejected mid-capture. -/
def msgIntervalMidCapture : String := "Cannot update photo interval mid-capture"

/-- Message printed when set_dur is rejected mid-capture. -/
def msgDurationMidCapture : String := "Cannot update time lapse duration mid-capture"

/-- Name under which setPhotoCount is registered with the shell. -/
def nameSetCount : String := "set_count"

/-- Name under which setPhotoInterval is registered with the shell. -/
def nameSetInterval : String := "set_interval"

/-- Name under which setTimeLapseDuration is registered with the shell. -/
def nameSetDur : String := "set_dur"

/-- badArgCount: print the command name followed by ": bad arg count" and
return EXIT_FAILURE.  It touches no global. -/
def badArgCount (cmdName : String) (s : Sys) : R :=
  { sys := s
    status := EXIT_FAILURE
    out := [cmdName ++ badArgSuffix]
    pulses := [] }

/-- setPhotoCount: with exactly one argument and not capturing, set
max_photos to the parsed int and recompute
time_lapse_dur_s = (float) max_photos * photo_interval_s; when capturing,
print a rejection message and change nothing; either way return
EXIT_SUCCESS.  With any other argument count, badArgCount. -/
def setPhotoCount (argv0 : String) (args : List Int) (s : Sys) : R :=
  match args with
  | [n] =>
      if !s.capturing then
        { sys := { s with
            max_photos := n
            time_lapse_dur_s := (n : ℚ) * s.photo_interval_s }
          status := EXIT_SUCCESS
          out := []
          pulses := [] }
      else
        { sys := s
          status := EXIT_SUCCESS
          out := [msgCountMidCapture]
          pulses := [] }
  | _ => badArgCount argv0 s

/-- setPhotoInterval: with exactly one argument and not capturing, set
photo_interval_s to the parsed float and recompute
time_lapse_dur_s = (float) max_photos * photo_interval_s; when capturing,
print a rejection message and change nothing; either way return
EXIT_SUCCESS.  With any other argument count, badArgCount.  No comparison
against MIN_PHOTO_INTERVAL_S is made anywhere. -/
def setPhotoInterval (argv0 : String) (args : List ℚ) (s : Sys) : R :=
  match args with
  | [q] =>
      if !s.capturing then
        { sys := { s with
            photo_interval_s := q
            time_lapse_dur_s := (s.max_photos : ℚ) * q }
          status := EXIT_SUCCESS
          out := []
          pulses := [] }
      else
        { sys := s
          status := EXIT_SUCCESS
          out := [msgIntervalMidCapture]
          pulses := [] }
  | _ => badArgCount argv0 s

/-- setTimeLapseDuration: with exactly one argument and not capturing, set
time_lapse_dur_s to the parsed float and derive
max_photos = (int) floor(time_lapse_dur_s / photo_interval_s); when
capturing, print a rejection message and change nothing; either way return
EXIT_SUCCESS.  With any other argument count, badArgCount.  There is no
guard against photo_interval_s == 0. -/
def setTimeLapseDuration (argv0 : String) (args : List ℚ) (s : Sys) : R :=
  match args with
  | [d] =>
      if !s.capturing then
        { sys := { s with
            time_lapse_dur_s := d
            max_photos := ⌊d / s.photo_interval_s⌋ }
          status := EXIT_SUCCESS
          out := []
          pulses := [] }
      else
        { sys := s
          status := EXIT_SUCCESS
          out := [msgDurationMidCapture]
          pulses := [] }
  | _ => badArgCount argv0 s

/-- triggerSinglePhoto: pulseAF when af_enabled, then always pulseShutter;
touches no global and returns EXIT_SUCCESS. -/
def triggerSinglePhoto (s : Sys) : R :=
  { sys := s
    status := EXIT_SUCCESS
    out := []
    pulses := (if s.af_enabled then [Pulse.af] else []) ++ [Pulse.shutter] }

/-- stopTimeLapse: set capturing to false and return EXIT_SUCCESS. -/
def stopTimeLapse (s : Sys) : R :=
  { sys := { s with capturing := false }
    status := EXIT_SUCCESS
    out := []
    pulses := [] }

/-- incrCapCount: increment num_photos; when the new count equals
max_photos, stopTimeLapse. -/
def incrCapCount (s : Sys) : Sys :=
  let s1 : Sys := { s with num_photos := s.num_photos + 1 }
  if s1.num_photos = s1.max_photos then (stopTimeLapse s1).sys else s1

/-- startTimeLapse: set capturing, reset num_photos to 0, restart the
photoTimer, fire one photo immediately, and incrCapCount; returns
EXIT_SUCCESS. -/
def startTimeLapse (s : Sys) : R :=
  let s1 : Sys := { s with capturing := true, num_photos := 0, timerMs := 0 }
  let t := triggerSinglePhoto s1
  let s2 := incrCapCount t.sys
  { sys := s2
    status := EXIT_SUCCESS
    out := []
    pulses := t.pulses }

/-- Chrono.hasPassed: elapsed time has reached the threshold. -/
def hasPassed (s : Sys) (thresholdMs : ℚ) : Bool :=
  decide (thresholdMs ≤ s.timerMs)

/-- One iteration of loop() with no pending serial input, dt milliseconds
after the previous iteration: real time advances the photoTimer; while
capturing, when photoTimer.hasPassed(photo_interval_s * 1000), restart the
timer, fire a photo and incrCapCount; otherwise (and when idle) change
nothing else. -/
def loop (dt : ℚ) (s : Sys) : R :=
  let s0 : Sys := { s with timerMs := s.timerMs + dt }
  if s0.capturing then
    if hasPassed s0 (s0.photo_interval_s * 1000) then
      let s1 : Sys := { s0 with timerMs := 0 }
      let t := triggerSinglePhoto s1
      { sys := incrCapCount t.sys
        status := EXIT_SUCCESS
        out := []
        pulses := t.pulses }
    else
      { sys := s0, status := EXIT_SUCCESS, out := [], pulses := [] }
  else
    { sys := s0, status := EXIT_SUCCESS, out := [], pulses := [] }

/-- Run a sequence of loop iterations, one per listed time delta,
collecting the emitted pulses. -/
def run : List ℚ → Sys → Sys × List Pulse
  | [], s => (s, [])
  | dt :: rest, s =>
      let r := loop dt s
      let p := run rest r.sys
      (p.1, r.pulses ++ p.2)

/-- Number of shutter pulses in a pulse trace. -/
def shutters : List Pulse → ℕ
  | [] => 0
  | Pulse.shutter :: rest => shutters rest + 1
  | Pulse.af :: rest => shutters rest

/-- A serial command or an input-free loop iteration, as far as it affects
the global state. -/
inductive Cmd where
  | setCount (args : List Int)
  | setInterval (args : List ℚ)
  | setDur (args : List ℚ)
  | start
  | cancel
  | trigger
  | tick (dt : ℚ)

/-- Effect of one command or loop iteration on the global state. -/
def stepCmd : Cmd → Sys → Sys
  | Cmd.setCount args, s => (setPhotoCount nameSetCount args s).sys
  | Cmd.setInterval args, s => (setPhotoInterval nameSetInterval args s).sys
  | Cmd.setDur args, s => (setTimeLapseDuration nameSetDur args s).sys
  | Cmd.start, s => (startTimeLapse s).sys
  | Cmd.cancel, s => (stopTimeLapse s).sys
  | Cmd.trigger, s => (triggerSinglePhoto s).sys
  | Cmd.tick dt, s => (loop dt s).sys

/-- States reachable from boot by any sequence of commands and loop
iterations. -/
inductive Reachable : Sys → Prop where
  | init : Reachable initState
  | step : ∀ {s : Sys} (c : Cmd), Reachable s → Reachable (stepCmd c s)

lemma shutters_append (l1 l2 : List Pulse) :
    shutters (l1 ++ l2) = shutters l1 + shutters l2 := by
  induction l1 with
  | nil => simp [shutters]
  | cons p rest ih =>
      cases p
      · simp [shutters, ih]
      · simp [shutters, ih]; omega

lemma run_cons (dt : ℚ) (rest : List ℚ) (s : Sys) :
    run (dt :: rest) s =
      ((run rest (loop dt s).sys).1, (loop dt s).pulses ++ (run rest (loop dt s).sys).2) :=
  rfl

lemma shutters_fire (af : Bool) :
    shutters ((if af then [Pulse.af] else []) ++ [Pulse.shutter]) = 1 := by
  cases af <;> rfl

lemma incrCapCount_stop (s : Sys) (h : s.num_photos + 1 = s.max_photos) :
    incrCapCount s = { s with num_photos := s.num_photos + 1, capturing := false } := by
  simp [incrCapCount, stopTimeLapse, h]

lemma incrCapCount_go (s : Sys) (h : s.num_photos + 1 ≠ s.max_photos) :
    incrCapCount s = { s with num_photos := s.num_photos + 1 } := by
  simp [incrCapCount, stopTimeLapse, h]

lemma loop_idle (dt : ℚ) (s : Sys) (h : s.capturing = false) :
    (loop dt s).sys = { s with timerMs := s.timerMs + dt } ∧
    (loop dt s).pulses = [] := by
  simp [loop, h]

lemma loop_fire (dt : ℚ) (s : Sys) (hc : s.capturing = true)
    (h : s.photo_interval_s * 1000 ≤ s.timerMs + dt) :
    (loop dt s).sys = incrCapCount { s with timerMs := 0 } ∧
    (loop dt s).pulses = (if s.af_enabled then [Pulse.af] else []) ++ [Pulse.shutter] := by
  simp [loop, hasPassed, triggerSinglePhoto, hc, h]

lemma loop_nofire (dt : ℚ) (s : Sys) (hc : s.capturing = true)
    (h : ¬ s.photo_interval_s * 1000 ≤ s.timerMs + dt) :
    (loop dt s).sys = { s with timerMs := s.timerMs + dt } ∧
    (loop dt s).pulses = [] := by
  simp [loop, hasPassed, hc, h]

lemma run_idle (dts : List ℚ) : ∀ s : Sys, s.capturing = false →
    (run dts s).1.capturing = false ∧ (run dts s).2 = [] := by
  induction dts with
  | nil => intro s h; simpa [run] using h
  | cons dt rest ih =>
      intro s h
      obtain ⟨h1, h2⟩ := loop_idle dt s h
      have hcap : (loop dt s).sys.capturing = false := by rw [h1]; exact h
      obtain ⟨ih1, ih2⟩ := ih (loop dt s).sys hcap
      exact ⟨by simpa [run] using ih1, by simp [run, h2, ih2]⟩

lemma run_append (l1 l2 : List ℚ) : ∀ s : Sys,
    run (l1 ++ l2) s =
      ((run l2 (run l1 s).1).1, (run l1 s).2 ++ (run l2 (run l1 s).1).2) := by
  induction l1 with
  | nil => intro s; simp [run]
  | cons dt rest ih => intro s; simp [run, ih, List.append_assoc]

lemma run_fires : ∀ (j : ℕ) (s : Sys), s.capturing = true → s.timerMs = 0 →
    s.num_photos + ((j : ℤ) + 1) = s.max_photos →
    (run (List.replicate (j + 1) (s.photo_interval_s * 1000)) s).1.capturing = false ∧
    shutters (run (List.replicate (j + 1) (s.photo_interval_s * 1000)) s).2 = j + 1 := by
  intro j
  induction j with
  | zero =>
      intro s hc ht hn
      obtain ⟨h1, h2⟩ :=
        loop_fire (s.photo_interval_s * 1000) s hc (by rw [ht]; simp)
      have hstop : ({ s with timerMs := 0 } : Sys).num_photos + 1
          = ({ s with timerMs := 0 } : Sys).max_photos := by
        simp; omega
      rw [incrCapCount_stop _ hstop] at h1
      simp only [Sys.mk.injEq] at h1 ⊢
      rw [List.replicate_succ, List.replicate_zero, run_cons, h1, h2]
      constructor
      · simp [run]
      · cases haf : s.af_enabled <;> simp [haf, run, shutters]
  | succ j ih =>
      intro s hc ht hn
      obtain ⟨h1, h2⟩ :=
        loop_fire (s.photo_interval_s * 1000) s hc (by rw [ht]; simp)
      have hgo : ({ s with timerMs := 0 } : Sys).num_photos + 1
          ≠ ({ s with timerMs := 0 } : Sys).max_photos := by
        simp; omega
      rw [incrCapCount_go _ hgo] at h1
      simp at h1
      have ihs := ih { s with timerMs := 0, num_photos := s.num_photos + 1 }
        (by simp [hc]) (by simp) (by simp; omega)
      simp at ihs
      rw [List.replicate_succ, run_cons, h1, h2]
      constructor
      · exact ihs.1
      · rw [shutters_append, shutters_fire]
        have hh := ihs.2
        omega

lemma loop_c4_inv (dt : ℚ) (s : Sys) (hc : s.capturing = true)
    (h1 : 1 ≤ s.num_photos) (h0 : s.max_photos = 0) :
    (loop dt s).sys.capturing = true ∧ 1 ≤ (loop dt s).sys.num_photos ∧
    (loop dt s).sys.max_photos = 0 := by
  by_cases hf : s.photo_interval_s * 1000 ≤ s.timerMs + dt
  · obtain ⟨e1, _⟩ := loop_fire dt s hc hf
    rw [incrCapCount_go _ (by simp [h0]; omega)] at e1
    rw [e1]
    exact ⟨by simp [hc], by simp; omega, by simp [h0]⟩
  · obtain ⟨e1, _⟩ := loop_nofire dt s hc hf
    rw [e1]
    exact ⟨by simp [hc], by simp; omega, by simp [h0]⟩

lemma run_c4_inv (dts : List ℚ) : ∀ s : Sys, s.capturing = true →
    1 ≤ s.num_photos → s.max_photos = 0 →
    (run dts s).1.capturing = true := by
  induction dts with
  | nil => intro s hc _ _; simpa [run] using hc
  | cons dt rest ih =>
      intro s hc h1 h0
      obtain ⟨a, b, c⟩ := loop_c4_inv dt s hc h1 h0
      rw [run_cons]
      exact ih _ a b c

/-- C1: for every targetCount > 0, startTimeLapse fires one photo
immediately, and running the loop at least targetCount - 1 further times
with a full interval elapsing before each iteration fires exactly
targetCount shutter pulses in total and leaves the controller idle
(capturing = false). -/
theorem c1_start_completes (s : Sys) (n : ℕ) (hn : 0 < n)
    (hmax : s.max_photos = (n : ℤ)) (k : ℕ) (hk : n - 1 ≤ k) :
    shutters (startTimeLapse s).pulses = 1 ∧
    shutters (startTimeLapse s).pulses +
      shutters (run (List.replicate k (s.photo_interval_s * 1000))
        (startTimeLapse s).sys).2 = n ∧
    (run (List.replicate k (s.photo_interval_s * 1000))
      (startTimeLapse s).sys).1.capturing = false := by
  have h1shut : shutters (startTimeLapse s).pulses = 1 := by
    show shutters ((if s.af_enabled then [Pulse.af] else []) ++ [Pulse.shutter]) = 1
    exact shutters_fire s.af_enabled
  rcases Nat.lt_or_ge n 2 with hlt | hge
  · have hn1 : n = 1 := by omega
    subst hn1
    have hcap : (startTimeLapse s).sys.capturing = false := by
      show (incrCapCount
        { s with capturing := true, num_photos := 0, timerMs := 0 }).capturing = false
      rw [incrCapCount_stop _ (by simp [hmax])]
    obtain ⟨ri1, ri2⟩ := run_idle (List.replicate k (s.photo_interval_s * 1000)) _ hcap
    refine ⟨h1shut, ?_, ri1⟩
    rw [ri2, h1shut]
    rfl
  · have hsys2 : (startTimeLapse s).sys =
        { s with capturing := true, num_photos := 1, timerMs := 0 } := by
      show incrCapCount { s with capturing := true, num_photos := 0, timerMs := 0 } = _
      rw [incrCapCount_go _ (by simp [hmax]; omega)]
      simp
    obtain ⟨m, rfl⟩ : ∃ m, k = (n - 1) + m := ⟨k - (n - 1), by omega⟩
    have hrep : n - 1 = (n - 2) + 1 := by omega
    rw [hsys2, List.replicate_add, run_append, hrep]
    have hf := run_fires (n - 2) { s with capturing := true, num_photos := 1, timerMs := 0 }
      (by simp) (by simp) (by simp [hmax]; omega)
    simp only [] at hf
    obtain ⟨hf1, hf2⟩ := hf
    obtain ⟨ri1, ri2⟩ := run_idle (List.replicate m (s.photo_interval_s * 1000)) _ hf1
    refine ⟨h1shut, ?_, ri1⟩
    rw [shutters_append, hf2, ri2, h1shut]
    simp [shutters]
    omega

/-- Concrete instance of c1_start_completes: target 2, one extra tick. -/
def c1w : Sys := { initState with max_photos := 2 }

/-- Witness for c1_start_completes at max_photos = 2, k = 1. -/
theorem c1_witness :
    0 < 2 ∧ c1w.max_photos = ((2 : ℕ) : ℤ) ∧ 2 - 1 ≤ 1 ∧
    (shutters (startTimeLapse c1w).pulses = 1 ∧
     shutters (startTimeLapse c1w).pulses +
       shutters (run (List.replicate 1 (c1w.photo_interval_s * 1000))
         (startTimeLapse c1w).sys).2 = 2 ∧
     (run (List.replicate 1 (c1w.photo_interval_s * 1000))
       (startTimeLapse c1w).sys).1.capturing = false) :=
  ⟨by decide, by decide, by decide,
    c1_start_completes c1w 2 (by decide) (by decide) 1 (by decide)⟩

/-- C4: starting a time lapse with targetCount = 0 never auto-stops: after
startTimeLapse, any sequence of loop iterations (with arbitrary elapsed
times) leaves capturing = true, and only the explicit stopTimeLapse
(cancel) clears it. -/
theorem c4_unlimited_no_autostop (s : Sys) (h : s.max_photos = 0) (dts : List ℚ) :
    (run dts (startTimeLapse s).sys).1.capturing = true ∧
    (stopTimeLapse (run dts (startTimeLapse s).sys).1).sys.capturing = false := by
  have hsys : (startTimeLapse s).sys =
      { s with capturing := true, num_photos := 1, timerMs := 0 } := by
    show incrCapCount { s with capturing := true, num_photos := 0, timerMs := 0 } = _
    rw [incrCapCount_go _ (by simp [h])]
    simp
  constructor
  · rw [hsys]
    exact run_c4_inv dts _ (by simp) (by simp) (by simp [h])
  · simp [stopTimeLapse]

/-- Concrete instance for c4_unlimited_no_autostop: target 0. -/
def c4w : Sys := { initState with max_photos := 0 }

/-- Witness for c4_unlimited_no_autostop at max_photos = 0 after one
firing tick. -/
theorem c4_witness :
    c4w.max_photos = 0 ∧
    ((run [1000] (startTimeLapse c4w).sys).1.capturing = true ∧
     (stopTimeLapse (run [1000] (startTimeLapse c4w).sys).1).sys.capturing = false) :=
  ⟨by decide, c4_unlimited_no_autostop c4w (by decide) [1000]⟩

/-- C7: in every state, triggerSinglePhoto leaves the whole state (in
particular num_photos) unchanged, emits the AF pulse iff autofocus is
enabled, and always emits the shutter pulse, with AF strictly before the
shutter when both occur. -/
theorem c7_trigger_pulses (s : Sys) :
    (triggerSinglePhoto s).sys = s ∧
    (Pulse.af ∈ (triggerSinglePhoto s).pulses ↔ s.af_enabled = true) ∧
    Pulse.shutter ∈ (triggerSinglePhoto s).pulses ∧
    (triggerSinglePhoto s).pulses =
      (if s.af_enabled then [Pulse.af, Pulse.shutter] else [Pulse.shutter]) := by
  cases h : s.af_enabled <;> simp [triggerSinglePhoto, h]

/-- C9: stopTimeLapse is total and idempotent: in every state it clears
capturing, returns EXIT_SUCCESS, leaves every other field unchanged, and
applying it twice gives the same state as applying it once. -/
theorem c9_cancel_idempotent (s : Sys) :
    (stopTimeLapse s).sys.capturing = false ∧
    (stopTimeLapse s).status = EXIT_SUCCESS ∧
    (stopTimeLapse s).sys.max_photos = s.max_photos ∧
    (stopTimeLapse s).sys.num_photos = s.num_photos ∧
    (stopTimeLapse s).sys.photo_interval_s = s.photo_interval_s ∧
    (stopTimeLapse s).sys.time_lapse_dur_s = s.time_lapse_dur_s ∧
    (stopTimeLapse s).sys.af_enabled = s.af_enabled ∧
    (stopTimeLapse (stopTimeLapse s).sys).sys = (stopTimeLapse s).sys := by
  simp [stopTimeLapse]

/-- A state that is mid-capture, used to exercise the rejection paths. -/
def captSt : Sys := { initState with capturing := true }

/-- C2 counterexample: mid-capture, setPhotoCount with the correct
argument count returns EXIT_SUCCESS, not a failure status, refuting the
claim that the mid-capture rejection returns a failure status. -/
theorem c2_counterexample :
    (setPhotoCount nameSetCount [5] captSt).status = EXIT_SUCCESS ∧
    EXIT_SUCCESS ≠ EXIT_FAILURE := by
  constructor
  · rfl
  · decide

/-- C2 (amended): while capturing, each of the three mutators invoked with
exactly one argument leaves the whole state (hence targetCount,
intervalSeconds and totalDurationSeconds) unchanged and prints a
mid-capture rejection message, but returns EXIT_SUCCESS rather than a
failure status. -/
theorem c2_reject_mid_capture (s : Sys) (h : s.capturing = true)
    (n : Int) (q d : ℚ) :
    setPhotoCount nameSetCount [n] s =
      { sys := s, status := EXIT_SUCCESS, out := [msgCountMidCapture], pulses := [] } ∧
    setPhotoInterval nameSetInterval [q] s =
      { sys := s, status := EXIT_SUCCESS, out := [msgIntervalMidCapture], pulses := [] } ∧
    setTimeLapseDuration nameSetDur [d] s =
      { sys := s, status := EXIT_SUCCESS, out := [msgDurationMidCapture], pulses := [] } := by
  refine ⟨?_, ?_, ?_⟩ <;>
    simp [setPhotoCount, setPhotoInterval, setTimeLapseDuration, h]

/-- Witness for c2_reject_mid_capture at a concrete capturing state. -/
theorem c2_witness :
    captSt.capturing = true ∧
    setPhotoCount nameSetCount [5] captSt =
      { sys := captSt, status := EXIT_SUCCESS,
        out := [msgCountMidCapture], pulses := [] } :=
  ⟨rfl, (c2_reject_mid_capture captSt rfl 5 2 10).1⟩

/-- C3 counterexample: the equation totalDurationSeconds =
targetCount * intervalSeconds fails in the initial state (0 vs 1 * 1) and
is not re-established by set_dur when the interval does not divide the
duration: after set_interval 3 and set_dur 10, the duration is 10 but
targetCount * interval is 3 * 3 = 9. -/
theorem c3_counterexample :
    (initState.time_lapse_dur_s ≠
      (initState.max_photos : ℚ) * initState.photo_interval_s) ∧
    ((setTimeLapseDuration nameSetDur [10]
        (setPhotoInterval nameSetInterval [3] initState).sys).sys.time_lapse_dur_s ≠
      ((setTimeLapseDuration nameSetDur [10]
          (setPhotoInterval nameSetInterval [3] initState).sys).sys.max_photos : ℚ) *
        (setTimeLapseDuration nameSetDur [10]
          (setPhotoInterval nameSetInterval [3] initState).sys).sys.photo_interval_s) := by
  constructor
  · norm_num [initState]
  · norm_num [setTimeLapseDuration, setPhotoInterval, initState]

/-- C3 (amended): outside capture, every successful set_count and
set_interval re-establishes totalDurationSeconds =
targetCount * intervalSeconds; set_dur instead stores the requested
duration d and derives targetCount = floor(d / intervalSeconds), so the
equation is re-established by set_dur only when that division is exact;
and the equation does not hold in the initial state, where
totalDurationSeconds starts at 0 while targetCount and intervalSeconds
start at 1. -/
theorem c3_duration_invariant (s : Sys) (h : s.capturing = false)
    (n : Int) (q d : ℚ) :
    ((setPhotoCount nameSetCount [n] s).sys.time_lapse_dur_s =
      ((setPhotoCount nameSetCount [n] s).sys.max_photos : ℚ) *
        (setPhotoCount nameSetCount [n] s).sys.photo_interval_s) ∧
    ((setPhotoInterval nameSetInterval [q] s).sys.time_lapse_dur_s =
      ((setPhotoInterval nameSetInterval [q] s).sys.max_photos : ℚ) *
        (setPhotoInterval nameSetInterval [q] s).sys.photo_interval_s) ∧
    ((setTimeLapseDuration nameSetDur [d] s).sys.max_photos =
      ⌊d / s.photo_interval_s⌋ ∧
     (setTimeLapseDuration nameSetDur [d] s).sys.time_lapse_dur_s = d) := by
  refine ⟨?_, ?_, ?_, ?_⟩ <;>
    simp [setPhotoCount, setPhotoInterval, setTimeLapseDuration, h]

/-- Witness for c3_duration_invariant at the initial state. -/
theorem c3_witness :
    initState.capturing = false ∧
    (setPhotoCount nameSetCount [5] initState).sys.time_lapse_dur_s =
      ((setPhotoCount nameSetCount [5] initState).sys.max_photos : ℚ) *
        (setPhotoCount nameSetCount [5] initState).sys.photo_interval_s :=
  ⟨rfl, (c3_duration_invariant initState rfl 5 2 10).1⟩

/-- C6: outside capture, set_interval 2 followed by set_count 5 yields
totalDurationSeconds = 10, and set_dur 10 while intervalSeconds = 2
derives targetCount = floor(10 / 2) = 5. -/
theorem c6_duration_derivation (s : Sys) (h : s.capturing = false) :
    (setPhotoCount nameSetCount [5]
        (setPhotoInterval nameSetInterval [2] s).sys).sys.time_lapse_dur_s = 10 ∧
    (s.photo_interval_s = 2 →
      (setTimeLapseDuration nameSetDur [10] s).sys.max_photos = 5) := by
  constructor
  · norm_num [setPhotoInterval, setPhotoCount, h]
  · intro hq
    norm_num [setTimeLapseDuration, h, hq]

/-- Concrete idle state with intervalSeconds = 2. -/
def c6w : Sys := { initState with photo_interval_s := 2 }

/-- Witness for c6_duration_derivation at interval 2. -/
theorem c6_witness :
    c6w.capturing = false ∧ c6w.photo_interval_s = 2 ∧
    (setPhotoCount nameSetCount [5]
        (setPhotoInterval nameSetInterval [2] c6w).sys).sys.time_lapse_dur_s = 10 ∧
    (setTimeLapseDuration nameSetDur [10] c6w).sys.max_photos = 5 :=
  ⟨rfl, rfl, (c6_duration_derivation c6w rfl).1,
    (c6_duration_derivation c6w rfl).2 rfl⟩

/-- C8: each argument-taking command invoked with an argument count other
than exactly one returns EXIT_FAILURE, prints the command name followed by
": bad arg count", and leaves the state unchanged. -/
theorem c8_bad_arg_count (argv0a argv0b argv0c : String) (argsN : List Int)
    (argsQ argsD : List ℚ) (s : Sys)
    (hN : argsN.length ≠ 1) (hQ : argsQ.length ≠ 1) (hD : argsD.length ≠ 1) :
    setPhotoCount argv0a argsN s =
      { sys := s, status := EXIT_FAILURE,
        out := [argv0a ++ badArgSuffix], pulses := [] } ∧
    setPhotoInterval argv0b argsQ s =
      { sys := s, status := EXIT_FAILURE,
        out := [argv0b ++ badArgSuffix], pulses := [] } ∧
    setTimeLapseDuration argv0c argsD s =
      { sys := s, status := EXIT_FAILURE,
        out := [argv0c ++ badArgSuffix], pulses := [] } := by
  refine ⟨?_, ?_, ?_⟩
  · rcases argsN with _ | ⟨n, _ | ⟨m, rest⟩⟩
    · rfl
    · simp at hN
    · rfl
  · rcases argsQ with _ | ⟨a, _ | ⟨b, rest⟩⟩
    · rfl
    · simp at hQ
    · rfl
  · rcases argsD with _ | ⟨a, _ | ⟨b, rest⟩⟩
    · rfl
    · simp at hD
    · rfl

/-- Witness for c8_bad_arg_count at empty argument lists. -/
theorem c8_witness :
    ([] : List Int).length ≠ 1 ∧
    setPhotoCount nameSetCount [] initState =
      { sys := initState, status := EXIT_FAILURE,
        out := [nameSetCount ++ badArgSuffix], pulses := [] } :=
  ⟨by decide,
    (c8_bad_arg_count nameSetCount nameSetInterval nameSetDur [] [] []
      initState (by decide) (by decide) (by decide)).1⟩

/-- C10: setPhotoInterval accepts every value, in particular every value
below MIN_PHOTO_INTERVAL_S and the value 0 (the minimum constant is never
enforced), and a subsequent setTimeLapseDuration outside capture applies
targetCount = floor(duration / intervalSeconds) with no guard against
intervalSeconds = 0 and still reports success.  (In the model, division is
total Rat division; in the C source this division is meaningful only under
the unstated precondition photo_interval_s != 0.) -/
theorem c10_no_min_interval (s : Sys) (q d : ℚ) (h : s.capturing = false) :
    ((setPhotoInterval nameSetInterval [q] s).sys.photo_interval_s = q ∧
     (setPhotoInterval nameSetInterval [q] s).status = EXIT_SUCCESS) ∧
    (q < MIN_PHOTO_INTERVAL_S →
      (setPhotoInterval nameSetInterval [q] s).sys.photo_interval_s = q) ∧
    (setPhotoInterval nameSetInterval [0] s).sys.photo_interval_s = 0 ∧
    ((setTimeLapseDuration nameSetDur [d]
        (setPhotoInterval nameSetInterval [0] s).sys).sys.max_photos =
      ⌊d / (0 : ℚ)⌋ ∧
     (setTimeLapseDuration nameSetDur [d]
        (setPhotoInterval nameSetInterval [0] s).sys).status = EXIT_SUCCESS) := by
  refine ⟨⟨?_, ?_⟩, fun _ => ?_, ?_, ?_, ?_⟩ <;>
    simp [setPhotoInterval, setTimeLapseDuration, h]

/-- Witness for c10_no_min_interval at the initial state with interval 0
and duration 10. -/
theorem c10_witness :
    initState.capturing = false ∧
    (setPhotoInterval nameSetInterval [(0 : ℚ)] initState).sys.photo_interval_s = 0 ∧
    (setTimeLapseDuration nameSetDur [10]
        (setPhotoInterval nameSetInterval [0] initState).sys).sys.max_photos =
      ⌊(10 : ℚ) / (0 : ℚ)⌋ :=
  ⟨rfl, (c10_no_min_interval initState 0 10 rfl).2.2.1,
    (c10_no_min_interval initState 0 10 rfl).2.2.2.1⟩

/-- Capture invariant: while capturing with a positive target, strictly
fewer photos have been taken than the target. -/
def CaptureInv (s : Sys) : Prop :=
  s.capturing = true → 0 < s.max_photos → s.num_photos < s.max_photos

lemma setPhotoCount_sys_cases (argv0 : String) (args : List Int) (s : Sys) :
    (setPhotoCount argv0 args s).sys = s ∨
    ((setPhotoCount argv0 args s).sys.capturing = false) := by
  rcases args with _ | ⟨n, _ | ⟨m, rest⟩⟩
  · exact Or.inl rfl
  · cases h : s.capturing
    · right; simp [setPhotoCount, h]
    · left; simp [setPhotoCount, h]
  · exact Or.inl rfl

lemma setPhotoInterval_sys_cases (argv0 : String) (args : List ℚ) (s : Sys) :
    (setPhotoInterval argv0 args s).sys = s ∨
    ((setPhotoInterval argv0 args s).sys.capturing = false) := by
  rcases args with _ | ⟨q, _ | ⟨b, rest⟩⟩
  · exact Or.inl rfl
  · cases h : s.capturing
    · right; simp [setPhotoInterval, h]
    · left; simp [setPhotoInterval, h]
  · exact Or.inl rfl

lemma setTimeLapseDuration_sys_cases (argv0 : String) (args : List ℚ) (s : Sys) :
    (setTimeLapseDuration argv0 args s).sys = s ∨
    ((setTimeLapseDuration argv0 args s).sys.capturing = false) := by
  rcases args with _ | ⟨d, _ | ⟨b, rest⟩⟩
  · exact Or.inl rfl
  · cases h : s.capturing
    · right; simp [setTimeLapseDuration, h]
    · left; simp [setTimeLapseDuration, h]
  · exact Or.inl rfl

lemma stepCmd_inv (c : Cmd) (s : Sys) (h : CaptureInv s) :
    CaptureInv (stepCmd c s) := by
  cases c with
  | setCount args =>
      rcases setPhotoCount_sys_cases nameSetCount args s with e | e
      · show CaptureInv (setPhotoCount nameSetCount args s).sys
        rw [e]; exact h
      · intro hc
        simp only [stepCmd] at hc
        simp [e] at hc
  | setInterval args =>
      rcases setPhotoInterval_sys_cases nameSetInterval args s with e | e
      · show CaptureInv (setPhotoInterval nameSetInterval args s).sys
        rw [e]; exact h
      · intro hc
        simp only [stepCmd] at hc
        simp [e] at hc
  | setDur args =>
      rcases setTimeLapseDuration_sys_cases nameSetDur args s with e | e
      · show CaptureInv (setTimeLapseDuration nameSetDur args s).sys
        rw [e]; exact h
      · intro hc
        simp only [stepCmd] at hc
        simp [e] at hc
  | start =>
      show CaptureInv (startTimeLapse s).sys
      by_cases he : (0 : ℤ) + 1 = s.max_photos
      · have hstop : (startTimeLapse s).sys.capturing = false := by
          show (incrCapCount
            { s with capturing := true, num_photos := 0, timerMs := 0 }).capturing = false
          rw [incrCapCount_stop _ (by simpa using he)]
        intro hc
        simp [hstop] at hc
      · have hs : (startTimeLapse s).sys =
            { s with capturing := true, num_photos := 1, timerMs := 0 } := by
          show incrCapCount
            { s with capturing := true, num_photos := 0, timerMs := 0 } = _
          rw [incrCapCount_go _ (by simpa using he)]
          simp
        rw [hs]
        intro _ hp
        simp at hp ⊢
        omega
  | cancel =>
      intro hc
      simp [stepCmd, stopTimeLapse] at hc
  | trigger =>
      show CaptureInv (triggerSinglePhoto s).sys
      exact h
  | tick dt =>
      show CaptureInv (loop dt s).sys
      cases hcap : s.capturing
      · obtain ⟨e1, _⟩ := loop_idle dt s hcap
        rw [e1]
        intro hc
        simp [hcap] at hc
      · by_cases hf : s.photo_interval_s * 1000 ≤ s.timerMs + dt
        · obtain ⟨e1, _⟩ := loop_fire dt s hcap hf
          rw [e1]
          by_cases he : s.num_photos + 1 = s.max_photos
          · rw [incrCapCount_stop _ (by simpa using he)]
            intro hc
            simp at hc
          · rw [incrCapCount_go _ (by simpa using he)]
            intro _ hp
            have hlt := h hcap (by simpa using hp)
            simp at hp ⊢
            omega
        · obtain ⟨e1, _⟩ := loop_nofire dt s hcap hf
          rw [e1]
          intro _ hp
          have hlt := h hcap (by simpa using hp)
          simpa using hlt

lemma reachable_inv {s : Sys} (h : Reachable s) : CaptureInv s := by
  induction h with
  | init =>
      intro hc _
      simp [initState] at hc
  | step c _ ih => exact stepCmd_inv c _ ih

/-- C5 counterexample: the bound takenCount <= targetCount (for
targetCount != 0) fails in reachable states.  First, an idle state: after
set_count 2, start, one firing tick (capture completes with takenCount 2)
and then set_count 1, the state has targetCount 1 but takenCount 2.
Second, even a capturing state: after set_count -1 and start, targetCount
is -1 (nonzero) while takenCount is 1. -/
theorem c5_counterexample :
    (Reachable (stepCmd (Cmd.setCount [1]) (stepCmd (Cmd.tick 1000)
        (stepCmd Cmd.start (stepCmd (Cmd.setCount [2]) initState)))) ∧
      (stepCmd (Cmd.setCount [1]) (stepCmd (Cmd.tick 1000)
        (stepCmd Cmd.start (stepCmd (Cmd.setCount [2]) initState)))).max_photos ≠ 0 ∧
      ¬ (stepCmd (Cmd.setCount [1]) (stepCmd (Cmd.tick 1000)
          (stepCmd Cmd.start (stepCmd (Cmd.setCount [2]) initState)))).num_photos ≤
        (stepCmd (Cmd.setCount [1]) (stepCmd (Cmd.tick 1000)
          (stepCmd Cmd.start (stepCmd (Cmd.setCount [2]) initState)))).max_photos) ∧
    (Reachable (stepCmd Cmd.start (stepCmd (Cmd.setCount [-1]) initState)) ∧
      (stepCmd Cmd.start (stepCmd (Cmd.setCount [-1]) initState)).capturing = true ∧
      (stepCmd Cmd.start (stepCmd (Cmd.setCount [-1]) initState)).max_photos ≠ 0 ∧
      ¬ (stepCmd Cmd.start (stepCmd (Cmd.setCount [-1]) initState)).num_photos ≤
        (stepCmd Cmd.start (stepCmd (Cmd.setCount [-1]) initState)).max_photos) := by
  have e1 : stepCmd (Cmd.setCount [2]) initState =
      ⟨false, 2, 0, false, 1, 2, 0⟩ := by
    norm_num [stepCmd, setPhotoCount, initState]
  have e2 : stepCmd Cmd.start (⟨false, 2, 0, false, 1, 2, 0⟩ : Sys) =
      ⟨true, 2, 1, false, 1, 2, 0⟩ := by
    norm_num [stepCmd, startTimeLapse, triggerSinglePhoto, incrCapCount, stopTimeLapse]
  have e3 : stepCmd (Cmd.tick 1000) (⟨true, 2, 1, false, 1, 2, 0⟩ : Sys) =
      ⟨false, 2, 2, false, 1, 2, 0⟩ := by
    norm_num [stepCmd, loop, hasPassed, triggerSinglePhoto, incrCapCount, stopTimeLapse]
  have e4 : stepCmd (Cmd.setCount [1]) (⟨false, 2, 2, false, 1, 2, 0⟩ : Sys) =
      ⟨false, 1, 2, false, 1, 1, 0⟩ := by
    norm_num [stepCmd, setPhotoCount]
  have f1 : stepCmd (Cmd.setCount [-1]) initState =
      ⟨false, -1, 0, false, 1, -1, 0⟩ := by
    norm_num [stepCmd, setPhotoCount, initState]
  have f2 : stepCmd Cmd.start (⟨false, -1, 0, false, 1, -1, 0⟩ : Sys) =
      ⟨true, -1, 1, false, 1, -1, 0⟩ := by
    norm_num [stepCmd, startTimeLapse, triggerSinglePhoto, incrCapCount, stopTimeLapse]
  refine ⟨⟨?_, ?_, ?_⟩, ?_, ?_, ?_, ?_⟩
  · exact Reachable.step (Cmd.setCount [1]) (Reachable.step (Cmd.tick 1000)
      (Reachable.step Cmd.start (Reachable.step (Cmd.setCount [2]) Reachable.init)))
  · rw [e1, e2, e3, e4]; decide
  · rw [e1, e2, e3, e4]; decide
  · exact Reachable.step Cmd.start (Reachable.step (Cmd.setCount [-1]) Reachable.init)
  · rw [f1, f2]
  · rw [f1, f2]; decide
  · rw [f1, f2]; decide

/-- C5 (amended): in every reachable state that is actively capturing with
a positive targetCount, takenCount <= targetCount.  The bound does not
hold over all reachable states with targetCount != 0: it can be violated
in idle states (takenCount persists when targetCount is lowered after a
completed capture) and with negative targets. -/
theorem c5_taken_le_target (s : Sys) (h : Reachable s)
    (hc : s.capturing = true) (hm : 0 < s.max_photos) :
    s.num_photos ≤ s.max_photos :=
  le_of_lt (reachable_inv h hc hm)

/-- Witness for c5_taken_le_target: the capturing state after set_count 2
and start. -/
theorem c5_witness :
    (stepCmd Cmd.start (stepCmd (Cmd.setCount [2]) initState)).capturing = true ∧
    0 < (stepCmd Cmd.start (stepCmd (Cmd.setCount [2]) initState)).max_photos ∧
    (stepCmd Cmd.start (stepCmd (Cmd.setCount [2]) initState)).num_photos ≤
      (stepCmd Cmd.start (stepCmd (Cmd.setCount [2]) initState)).max_photos := by
  have e1 : stepCmd (Cmd.setCount [2]) initState =
      ⟨false, 2, 0, false, 1, 2, 0⟩ := by
    norm_num [stepCmd, setPhotoCount, initState]
  have e2 : stepCmd Cmd.start (⟨false, 2, 0, false, 1, 2, 0⟩ : Sys) =
      ⟨true, 2, 1, false, 1, 2, 0⟩ := by
    norm_num [stepCmd, startTimeLapse, triggerSinglePhoto, incrCapCount, stopTimeLapse]
  refine ⟨?_, ?_, ?_⟩
  · rw [e1, e2]
  · rw [e1, e2]; decide
  · exact c5_taken_le_target _
      (Reachable.step Cmd.start (Reachable.step (Cmd.setCount [2]) Reachable.init))
      (by rw [e1, e2]) (by rw [e1, e2]; decide)

end TimeLapse
